import Mathlib

/-!
Verification of the Flake-FHS template validator (`templates-validators.py`)
against its natural-language specification.

The Python module is shallowly embedded: Python `str` values become
`List Char`, the filesystem and external `nix` invocations become explicit
inputs (an environment record per template), and every function of the
`TemplateValidator` class becomes a pure Lean function over those inputs.
OS-level exceptions (I/O errors, timeouts) are environmental and outside the
embedding: each function is modelled on its non-raising paths, which is the
behaviour the claims quantify over.
-/

namespace FlakeFHS

/-! ### Python string primitives -/

/-- ASCII whitespace, the characters Python's `str.strip` and the regex
class matched by the validator remove or skip: space, tab, newline, carriage
return, vertical tab, form feed. -/
def isPySpace (c : Char) : Bool :=
  c = ' ' || c = '\t' || c = '\n' || c = '\r' || c = '\x0b' || c = '\x0c'

/-- Consume `pat` from the front of `s`: `some rest` when `s = pat ++ rest`,
`none` otherwise. The building block for substring search. -/
def dropExact : List Char → List Char → Option (List Char)
  | [], s => some s
  | _ :: _, [] => none
  | p :: ps, c :: cs => if p = c then dropExact ps cs else none

/-- Python's `pat in s` substring test: `pat` occurs contiguously in `s`. -/
def containsSub (pat : List Char) : List Char → Bool
  | [] => (dropExact pat []).isSome
  | c :: rest => (dropExact pat (c :: rest)).isSome || containsSub pat rest

/-- Python's `str.strip()`: remove leading and trailing whitespace. -/
def pyStrip (s : List Char) : List Char :=
  ((s.dropWhile isPySpace).reverse.dropWhile isPySpace).reverse

/-- Fuelled worker for `pyReplace`. Replaces non-overlapping occurrences of
`pat` left to right, exactly as Python's `str.replace`. For a nonempty `pat`
every step strictly shortens the scanned list, so fuel `s.length` (as passed
by `pyReplace`) never runs out before the scan completes. -/
def replaceAllAux (pat repl : List Char) : Nat → List Char → List Char
  | 0, s => s
  | _ + 1, [] => []
  | fuel + 1, c :: rest =>
    match dropExact pat (c :: rest) with
    | some rem => repl ++ replaceAllAux pat repl fuel rem
    | none => c :: replaceAllAux pat repl fuel rest

/-- Python's `s.replace(pat, repl)` for a nonempty `pat` (the validator only
ever replaces its fixed, nonempty canonical URL). -/
def pyReplace (s pat repl : List Char) : List Char :=
  replaceAllAux pat repl s.length s

/-! ### The regex of `_find_flake_urls`

The pattern is `flake-fhs\.url\s*=\s*"([^"]+)"`, used with `re.findall`:
scan left to right, at each position try to match; on a match emit the
capture and resume after the match, otherwise advance one character. -/

/-- Split at the first `"`: `some (before, after)` when a quote occurs.
This is exactly what the greedy `[^"]+` followed by `"` matches (the capture
cannot cross a quote), modulo the nonemptiness check done by the caller. -/
def splitAtQuote : List Char → Option (List Char × List Char)
  | [] => none
  | c :: rest =>
    if c = '"' then some ([], rest)
    else
      match splitAtQuote rest with
      | none => none
      | some (a, b) => some (c :: a, b)

/-- Try the regex `flake-fhs\.url\s*=\s*"([^"]+)"` anchored at the head of
`s`; `some (capture, rest)` on a match. -/
def matchUrlAt (s : List Char) : Option (List Char × List Char) :=
  match dropExact ( "flake-fhs.url".toList) s with
  | none => none
  | some s1 =>
    match s1.dropWhile isPySpace with
    | '=' :: s3 =>
      match s3.dropWhile isPySpace with
      | '"' :: s5 =>
        match splitAtQuote s5 with
        | some (cap, rem) => if cap.isEmpty then none else some (cap, rem)
        | none => none
      | _ => none
    | _ => none

/-- Fuelled `re.findall` scan; every step strictly shortens the list (a match
consumes at least the 13 literal characters of `flake-fhs.url`), so fuel
`content.length` suffices. -/
def findFlakeUrlsAux : Nat → List Char → List (List Char)
  | 0, _ => []
  | _ + 1, [] => []
  | fuel + 1, c :: rest =>
    match matchUrlAt (c :: rest) with
    | some (cap, rem) => cap :: findFlakeUrlsAux fuel rem
    | none => findFlakeUrlsAux fuel rest

/-- `_find_flake_urls`: all values captured by the URL-assignment regex, in
order of appearance. -/
def find_flake_urls (content : List Char) : List (List Char) :=
  findFlakeUrlsAux content.length content

/-! ### Data model -/

/-- `TestStatus`, the Python enum. -/
inductive TestStatus where
  | PASSED
  | FAILED
  | SKIPPED
  deriving DecidableEq

/-- A value in a `TestResult.details` mapping. The Python code stores
strings, integers, lengths and lists of strings under string keys. -/
inductive DetailValue where
  | str : List Char → DetailValue
  | int : Int → DetailValue
  | nat : Nat → DetailValue
  | strList : List (List Char) → DetailValue
  deriving DecidableEq

/-- The `TestResult` dataclass. `details` keeps insertion order. -/
structure TestResult where
  name : List Char
  status : TestStatus
  message : List Char
  details : Option (List (String × DetailValue))
  deriving DecidableEq

/-- The `TemplateValidationResult` dataclass. -/
structure TemplateValidationResult where
  template_name : List Char
  overall_status : TestStatus
  tests : List TestResult
  error_message : Option (List Char)
  deriving DecidableEq

/-- First-match lookup in an association list, the model of Python
`dict.get` for the small literal dicts the validator builds. -/
def lookupKey {α : Type} : List (String × α) → String → Option α
  | [], _ => none
  | (k, v) :: rest, key => if k = key then some v else lookupKey rest key

/-- `(details or {}).get(key)`. -/
def getDetail (d : Option (List (String × DetailValue))) (key : String) :
    Option DetailValue :=
  match d with
  | none => none
  | some l => lookupKey l key

/-- `(t.details or {}).get("suggestion", "")`, as used by the output-check
gate and by the aggregation policy. Every `suggestion` the code stores is a
string, so other shapes fall back to the empty default. -/
def suggestionOf (t : TestResult) : List Char :=
  match getDetail t.details "suggestion" with
  | some (DetailValue.str s) => s
  | _ => []

/-! ### The validator's constants -/

/-- `TemplateValidator.EXPECTED_GITHUB_URL`. -/
def EXPECTED_GITHUB_URL : List Char := "github:luochen1990/flake-fhs".toList

/-- Benign-failure signature matched first by `_run_flake_check`. -/
def mkFlakeMissingSig : List Char := "attribute 'mkFlake' missing".toList

/-- Benign-failure signature matched second by `_run_flake_check`. -/
def setFunctionSig : List Char := "expected a set but found a function".toList

/-- Benign-failure signature matched third by `_run_flake_check`. -/
def circularImportSig : List Char := "found circular import of flake".toList

/-- Suggestion stored for the `mkFlake missing` signature. -/
def mkFlakeSuggestion : List Char :=
  "This is expected with local path replacement in build environments".toList

/-- Suggestion stored for the `set but found a function` signature. -/
def libEvalSuggestion : List Char :=
  "This is a known issue with local path replacement in build environments".toList

/-- Suggestion stored for the `circular import` signature. -/
def circularSuggestion : List Char :=
  "This is expected with local path replacement when testing flake-fhs templates".toList

/-! ### Text Inspector: `_check_template_uses_github_url`, `_find_flake_urls`

The file read is modelled by an `Option (List Char)`: `none` when
`template_path / "flake.nix"` does not exist, `some content` otherwise. -/

/-- `_check_template_uses_github_url`, given the manifest read outcome. -/
def check_template_uses_github_url (manifest : Option (List Char)) : TestResult :=
  match manifest with
  | none =>
    TestResult.mk ( "github_url_check".toList) TestStatus.FAILED
      ( "flake.nix not found in template".toList) none
  | some content =>
    if containsSub EXPECTED_GITHUB_URL content then
      TestResult.mk ( "github_url_check".toList) TestStatus.PASSED
        ( "Template uses correct GitHub URL".toList) none
    else
      TestResult.mk ( "github_url_check".toList) TestStatus.FAILED
        ( "Template does not use expected GitHub URL: ".toList ++ EXPECTED_GITHUB_URL)
        (some [( "found_urls", DetailValue.strList (find_flake_urls content))])

/-! ### Sandbox Builder: `_replace_github_with_local_path`, `_create_temp_template` -/

/-- `_replace_github_with_local_path`: replace every occurrence of the
canonical URL with `"path:" ++ project_root`. -/
def replace_github_with_local_path (project_root content : List Char) : List Char :=
  pyReplace content EXPECTED_GITHUB_URL ( "path:".toList ++ project_root)

/-- `_create_temp_template`, given the sandbox copy of the manifest (the
copy step preserves file contents, so this is the template's own
`flake.nix` read outcome). Returns `(success, error_message)` exactly as the
Python function does; on the `some` path the rewritten text is
`replace_github_with_local_path project_root content` and success is the
re-read verification `"path:" in content and EXPECTED_GITHUB_URL not in
content`. -/
def create_temp_template (project_root : List Char) (manifest : Option (List Char)) :
    Bool × Option (List Char) :=
  match manifest with
  | none => (false, some ( "flake.nix not found in template".toList))
  | some content =>
    let modified := replace_github_with_local_path project_root content
    if containsSub ( "path:".toList) modified && !containsSub EXPECTED_GITHUB_URL modified then
      (true, none)
    else
      (false, some ( "Failed to replace GitHub URL with local path".toList))

/-! ### Evaluator: `_run_flake_check`, `_check_template_outputs` -/

/-- The `if`/`elif` classification ladder inside `_run_flake_check` for a
non-zero exit, applied to the already-computed `error_msg`: the three benign
signatures in source order, then the unmatched fallback recording the exit
code and stdout with no suggestion. -/
def classify_flake_failure (returncode : Int) (stdout error_msg : List Char) : TestResult :=
  if containsSub mkFlakeMissingSig error_msg then
    TestResult.mk ( "flake_check".toList) TestStatus.FAILED
      ( "mkFlake function not found (local path issue)".toList)
      (some [( "error", DetailValue.str error_msg),
             ( "suggestion", DetailValue.str mkFlakeSuggestion)])
  else if containsSub setFunctionSig error_msg then
    TestResult.mk ( "flake_check".toList) TestStatus.FAILED
      ( "lib evaluation error (utils/lib issue)".toList)
      (some [( "error", DetailValue.str error_msg),
             ( "suggestion", DetailValue.str libEvalSuggestion)])
  else if containsSub circularImportSig error_msg then
    TestResult.mk ( "flake_check".toList) TestStatus.FAILED
      ( "Circular import (local path issue)".toList)
      (some [( "error", DetailValue.str error_msg),
             ( "suggestion", DetailValue.str circularSuggestion)])
  else
    TestResult.mk ( "flake_check".toList) TestStatus.FAILED
      ( "nix flake check failed: ".toList ++ error_msg)
      (some [( "return_code", DetailValue.int returncode),
             ( "stdout", DetailValue.str stdout)])

/-- `_run_flake_check`, given the captured exit code, stdout and stderr of
`nix flake check`. On a non-zero exit, `error_msg` is the stripped stderr
(or `Unknown error` for empty stderr) and the classification ladder runs;
a zero exit passes. -/
def run_flake_check (returncode : Int) (stdout stderr : List Char) : TestResult :=
  if returncode ≠ 0 then
    classify_flake_failure returncode stdout
      (if stderr.isEmpty then ( "Unknown error".toList) else pyStrip stderr)
  else
    TestResult.mk ( "flake_check".toList) TestStatus.PASSED
      ( "nix flake check passed".toList) none

/-- The JSON of a successful `nix flake show --json` parse, restricted to
the four categories the validator reads. Each category maps a platform key
to the list of attribute names below it; an absent category is the empty
list, matching `flake_data.get(category, {})`. -/
structure FlakeShowData where
  packages : List (String × List (List Char))
  checks : List (String × List (List Char))
  devShells : List (String × List (List Char))
  apps : List (String × List (List Char))
  deriving DecidableEq

/-- `len(category.get(platform, {}))`. -/
def platformCount (category : List (String × List (List Char))) (platform : String) : Nat :=
  match lookupKey category platform with
  | some l => l.length
  | none => 0

/-- Outcome of the `nix flake show --json` invocation as
`_check_template_outputs` observes it: a non-zero exit with its stderr, a
zero exit whose stdout fails to parse as JSON, or parsed data. -/
inductive ShowResult where
  | cmdFailed : List Char → ShowResult
  | parseError : List Char → List Char → ShowResult
  | parsed : FlakeShowData → ShowResult
  deriving DecidableEq

/-- `_check_template_outputs`, given the observed `nix flake show` outcome.
`parseError e out` carries `str(e)` and the raw stdout, of which the first
500 characters are recorded. -/
def check_template_outputs (r : ShowResult) : TestResult :=
  match r with
  | ShowResult.cmdFailed stderr =>
    TestResult.mk ( "outputs_check".toList) TestStatus.FAILED
      ( "Failed to get flake outputs: ".toList ++ pyStrip stderr) none
  | ShowResult.parseError e out =>
    TestResult.mk ( "outputs_check".toList) TestStatus.FAILED
      ( "Failed to parse flake show JSON: ".toList ++ e)
      (some [( "raw_output", DetailValue.str (out.take 500))])
  | ShowResult.parsed d =>
    let package_count := platformCount d.packages "x86_64-linux"
    let outputs_info :=
      [( "packages", DetailValue.nat package_count),
       ( "checks", DetailValue.nat (platformCount d.checks "x86_64-linux")),
       ( "devShells", DetailValue.nat (platformCount d.devShells "x86_64-linux")),
       ( "apps", DetailValue.nat (platformCount d.apps "x86_64-linux"))]
    if package_count > 0 then
      TestResult.mk ( "outputs_check".toList) TestStatus.PASSED
        ( "Template generates expected outputs".toList) (some outputs_info)
    else
      TestResult.mk ( "outputs_check".toList) TestStatus.FAILED
        ( "Template does not generate any packages".toList) (some outputs_info)

/-! ### Orchestrator: `validate_template` -/

/-- Everything `validate_template` observes about one template and its two
external invocations: whether `templates_dir / name` exists and is a
directory, the template's `flake.nix` read outcome, the captured
`nix flake check` process result, and the `nix flake show` outcome. -/
structure TemplateEnv where
  dir_ok : Bool
  manifest : Option (List Char)
  flake_check_returncode : Int
  flake_check_stdout : List Char
  flake_check_stderr : List Char
  show_result : ShowResult
  project_root : List Char
  templates_dir : List Char

/-- A failed test is tolerated by the aggregation policy iff its suggestion
contains `local path replacement` or `local path issue` — the loop body of
the critical-failure count in `validate_template`. -/
def tolerated (t : TestResult) : Bool :=
  containsSub ( "local path replacement".toList) (suggestionOf t) ||
    containsSub ( "local path issue".toList) (suggestionOf t)

/-- Membership in `critical_failures`: status `FAILED` and not tolerated. -/
def is_critical (t : TestResult) : Bool :=
  decide (t.status = TestStatus.FAILED) && !tolerated t

/-- The `critical_failures` list built by `validate_template`. -/
def critical_failures (tests : List TestResult) : List TestResult :=
  tests.filter is_critical

/-- The aggregation policy: `FAILED` iff `critical_failures` is nonempty. -/
def overall_status_of (tests : List TestResult) : TestStatus :=
  if (critical_failures tests).isEmpty then TestStatus.PASSED else TestStatus.FAILED

/-- The `tests` list `validate_template` accumulates when the directory
exists: the URL check, then sandbox creation; on creation failure a single
`FAILED` record and nothing further, otherwise the `PASSED` creation record,
the structural check, and either the output check (when the structural check
passed or its suggestion contains `local path issue`) or a `SKIPPED`
placeholder. -/
def validate_template_tests (env : TemplateEnv) : List TestResult :=
  let t1 := check_template_uses_github_url env.manifest
  match create_temp_template env.project_root env.manifest with
  | (false, error_msg) =>
    [t1,
     TestResult.mk ( "temp_template_creation".toList) TestStatus.FAILED
       (error_msg.getD []) none]
  | (true, _) =>
    let t2 := TestResult.mk ( "temp_template_creation".toList) TestStatus.PASSED
      ( "Temporary template created with local path".toList) none
    let fc := run_flake_check env.flake_check_returncode env.flake_check_stdout
      env.flake_check_stderr
    let t4 :=
      if decide (fc.status = TestStatus.PASSED) ||
          containsSub ( "local path issue".toList) (suggestionOf fc) then
        check_template_outputs env.show_result
      else
        TestResult.mk ( "outputs_check".toList) TestStatus.SKIPPED
          ( "Skipped due to flake check failures".toList) none
    [t1, t2, fc, t4]

/-- `validate_template`: short-circuit with only `error_message` when the
directory is missing, otherwise run the test sequence and aggregate. -/
def validate_template (env : TemplateEnv) (template_name : List Char) :
    TemplateValidationResult :=
  if env.dir_ok then
    TemplateValidationResult.mk template_name
      (overall_status_of (validate_template_tests env))
      (validate_template_tests env) none
  else
    TemplateValidationResult.mk template_name TestStatus.FAILED []
      (some ( "Template directory not found: ".toList ++ env.templates_dir ++
        [ '/' ] ++ template_name))

/-! ### Batch enumeration: `validate_all_templates` -/

/-- One entry of `templates_dir.iterdir()`. -/
structure DirEntry where
  name : List Char
  is_dir : Bool
  deriving DecidableEq

/-- Python `name.startswith('.')`. -/
def startsWithDot (s : List Char) : Bool :=
  match s with
  | [] => false
  | c :: _ => c = '.'

/-- The filter selecting template directories from `iterdir()`. -/
def is_template_dir (d : DirEntry) : Bool :=
  d.is_dir && !startsWithDot d.name

/-- What `validate_all_templates` observes: whether the templates root
exists, its directory listing, and each named template's own environment. -/
structure AllEnv where
  root_exists : Bool
  entries : List DirEntry
  templates_dir : List Char
  tmpl_env : List Char → TemplateEnv

/-- `validate_all_templates`: a synthetic `error` entry when the root is
missing or no template directory is found, otherwise the name-keyed mapping
of per-template results (an association list in insertion order, as a Python
dict is). -/
def validate_all_templates (env : AllEnv) :
    List (List Char × TemplateValidationResult) :=
  if !env.root_exists then
    [( "error".toList,
       TemplateValidationResult.mk ( "error".toList) TestStatus.FAILED []
         (some ( "Templates directory not found: ".toList ++ env.templates_dir)))]
  else
    let template_dirs := env.entries.filter is_template_dir
    if template_dirs.isEmpty then
      [( "error".toList,
         TemplateValidationResult.mk ( "error".toList) TestStatus.FAILED []
           (some ( "No template directories found".toList)))]
    else
      template_dirs.map (fun d => (d.name, validate_template (env.tmpl_env d.name) d.name))

/-! ### Concrete example inputs

Used by the closed witness and counterexample theorems below. `contentB` is
a minimal manifest carrying the canonical reference; `envB` is the spec's
Scenario B (everything passes); `envC` is the spec's Scenario C (structural
check fails with the `mkFlake missing` signature); `envNoManifest` has a
template directory without a `flake.nix`. -/

/-- A manifest text containing the canonical GitHub reference. -/
def contentB : List Char := "flake-fhs.url = \"github:luochen1990/flake-fhs\";".toList

/-- An example project root used for local-path substitution. -/
def rootA : List Char := "/fhs".toList

/-- Parsed `flake show` data with two packages for `x86_64-linux`. -/
def dataB : FlakeShowData :=
  FlakeShowData.mk [( "x86_64-linux", [ "default".toList, "hello".toList])] [] [] []

/-- Parsed `flake show` data with no outputs at all. -/
def dataZero : FlakeShowData := FlakeShowData.mk [] [] [] []

/-- Scenario B: canonical reference present, `nix flake check` exits 0,
`flake show` parses with two packages. -/
def envB : TemplateEnv :=
  TemplateEnv.mk true (some contentB) 0 [] [] (ShowResult.parsed dataB) rootA
    ( "templates".toList)

/-- Scenario C: canonical reference present, `nix flake check` exits 1 with
stderr equal to the `mkFlake missing` signature, `flake show` parses with
zero packages. -/
def envC : TemplateEnv :=
  TemplateEnv.mk true (some contentB) 1 [] mkFlakeMissingSig
    (ShowResult.parsed dataZero) rootA ( "templates".toList)

/-- A template directory that exists but has no `flake.nix`. -/
def envNoManifest : TemplateEnv :=
  TemplateEnv.mk true none 0 [] [] (ShowResult.parsed dataZero) rootA
    ( "templates".toList)

/-! ### Lemmas about the string primitives -/

theorem dropExact_isSome_iff (pat : List Char) :
    ∀ s : List Char, (dropExact pat s).isSome = true ↔ ∃ t, s = pat ++ t := by
  induction pat with
  | nil => intro s; simp [dropExact]
  | cons p ps ih =>
    intro s
    cases s with
    | nil => simp [dropExact]
    | cons c cs =>
      by_cases hp : p = c
      · subst hp
        simp [dropExact, ih]
      · simp only [dropExact, if_neg hp, Option.isSome_none, List.cons_append]
        constructor
        · intro h; cases h
        · rintro ⟨t, ht⟩
          exact absurd (List.head_eq_of_cons_eq ht).symm hp

theorem containsSub_iff (pat s : List Char) :
    containsSub pat s = true ↔ ∃ a b, s = a ++ (pat ++ b) := by
  induction s with
  | nil =>
    rw [containsSub, dropExact_isSome_iff]
    constructor
    · rintro ⟨t, ht⟩
      exact ⟨[], t, ht⟩
    · rintro ⟨a, b, hab⟩
      rw [eq_comm, List.append_eq_nil] at hab
      exact ⟨b, hab.2.symm⟩
  | cons c cs ih =>
    rw [containsSub, Bool.or_eq_true, dropExact_isSome_iff, ih]
    constructor
    · rintro (⟨t, ht⟩ | ⟨a, b, hab⟩)
      · exact ⟨[], t, ht⟩
      · exact ⟨c :: a, b, by rw [hab]; rfl⟩
    · rintro ⟨a, b, hab⟩
      cases a with
      | nil => exact Or.inl ⟨b, hab⟩
      | cons a0 a1 =>
        refine Or.inr ⟨a1, b, ?_⟩
        exact List.tail_eq_of_cons_eq hab

theorem containsSub_append_of (pat x a b : List Char) (h : containsSub pat x = true) :
    containsSub pat (a ++ (x ++ b)) = true := by
  obtain ⟨u, v, rfl⟩ := (containsSub_iff pat x).mp h
  refine (containsSub_iff pat _).mpr ⟨a ++ u, v ++ b, ?_⟩
  simp [List.append_assoc]

theorem containsSub_self (pat : List Char) : containsSub pat pat = true :=
  (containsSub_iff pat pat).mpr ⟨[], [], by simp⟩

/-- The strip of a string sits between its stripped-off whitespace margins. -/
theorem pyStrip_decomp (s : List Char) :
    s = s.takeWhile isPySpace ++
      (pyStrip s ++ ((s.dropWhile isPySpace).reverse.takeWhile isPySpace).reverse) := by
  have h2 := List.takeWhile_append_dropWhile isPySpace (s.dropWhile isPySpace).reverse
  have h3 := congrArg List.reverse h2
  rw [List.reverse_append, List.reverse_reverse] at h3
  conv_lhs => rw [← List.takeWhile_append_dropWhile isPySpace s, ← h3]
  rw [pyStrip]

theorem containsSub_of_pyStrip (pat s : List Char)
    (h : containsSub pat (pyStrip s) = true) : containsSub pat s = true := by
  obtain ⟨a, b, hab⟩ := (containsSub_iff pat (pyStrip s)).mp h
  have hd := pyStrip_decomp s
  rw [hab] at hd
  refine (containsSub_iff pat s).mpr
    ⟨s.takeWhile isPySpace ++ a,
     b ++ ((s.dropWhile isPySpace).reverse.takeWhile isPySpace).reverse, ?_⟩
  conv_lhs => rw [hd]
  simp [List.append_assoc]

theorem not_containsSub_pyStrip (pat s : List Char) (h : containsSub pat s = false) :
    containsSub pat (pyStrip s) = false := by
  cases hx : containsSub pat (pyStrip s) with
  | false => rfl
  | true =>
    have hc := containsSub_of_pyStrip pat s hx
    rw [h] at hc
    cases hc

/-- Dropping a whitespace prefix cannot eat into an occurrence of a pattern
whose first character is not whitespace. -/
theorem dropWhile_keep_pat (ph : Char) (pt b : List Char) (hph : isPySpace ph = false) :
    ∀ a : List Char,
      ∃ a2, (a ++ ((ph :: pt) ++ b)).dropWhile isPySpace = a2 ++ ((ph :: pt) ++ b) := by
  intro a
  induction a with
  | nil => exact ⟨[], by simp [List.dropWhile_cons, hph]⟩
  | cons c a1 ih =>
    by_cases hc : isPySpace c = true
    · obtain ⟨a2, h2⟩ := ih
      exact ⟨a2, by simpa [List.dropWhile_cons, hc] using h2⟩
    · exact ⟨c :: a1, by simp [List.dropWhile_cons, hc]⟩

/-- Stripping preserves an occurrence of a pattern whose first and last
characters are not whitespace (all three benign signatures qualify). -/
theorem containsSub_pyStrip_of (pat s : List Char) (hne : pat ≠ [])
    (hhead : isPySpace (pat.headD ' ') = false)
    (hlast : isPySpace (pat.reverse.headD ' ') = false)
    (h : containsSub pat s = true) :
    containsSub pat (pyStrip s) = true := by
  obtain ⟨a, b, hs⟩ := (containsSub_iff pat s).mp h
  cases pat with
  | nil => exact absurd rfl hne
  | cons ph pt =>
    have hhead2 : isPySpace ph = false := hhead
    cases hrev : (ph :: pt).reverse with
    | nil => exact absurd (List.reverse_eq_nil_iff.mp hrev) (by simp)
    | cons pl plr =>
      have hlast2 : isPySpace pl = false := by rw [hrev] at hlast; exact hlast
      subst hs
      have hplrev : (pl :: plr).reverse = ph :: pt := by
        rw [← hrev, List.reverse_reverse]
      obtain ⟨a2, h2⟩ := dropWhile_keep_pat ph pt b hhead2 a
      have hrevu : ((a ++ ((ph :: pt) ++ b)).dropWhile isPySpace).reverse =
          b.reverse ++ ((pl :: plr) ++ a2.reverse) := by
        rw [h2]
        simp only [List.reverse_append, hrev, List.append_assoc]
      obtain ⟨c, h3⟩ := dropWhile_keep_pat pl plr a2.reverse hlast2 b.reverse
      rw [← hrevu] at h3
      have hstrip : pyStrip (a ++ ((ph :: pt) ++ b)) = a2 ++ ((ph :: pt) ++ c.reverse) := by
        rw [pyStrip, h3]
        simp only [List.reverse_append, List.reverse_reverse, hplrev, List.append_assoc]
      rw [hstrip]
      exact containsSub_append_of _ _ _ _ (containsSub_self (ph :: pt))

/-- Python `replace` leaves a string without occurrences unchanged. -/
theorem replaceAllAux_id_of_not_contains (pat repl : List Char) :
    ∀ (fuel : Nat) (s : List Char), containsSub pat s = false →
      replaceAllAux pat repl fuel s = s := by
  intro fuel
  induction fuel with
  | zero => intro s _; rfl
  | succ n ih =>
    intro s hs
    cases s with
    | nil => rfl
    | cons c cs =>
      rw [containsSub, Bool.or_eq_false_iff] at hs
      obtain ⟨h1, h2⟩ := hs
      have hnone : dropExact pat (c :: cs) = none := by
        cases hd : dropExact pat (c :: cs) with
        | none => rfl
        | some r => rw [hd] at h1; cases h1
      simp only [replaceAllAux, hnone]
      rw [ih cs h2]

/-- `s.replace(pat, repl) == s` when `pat` does not occur in `s`. -/
theorem pyReplace_id_of_not_contains (s pat repl : List Char)
    (h : containsSub pat s = false) : pyReplace s pat repl = s :=
  replaceAllAux_id_of_not_contains pat repl s.length s h

/-! ### Lemmas about details lookups and aggregation -/

theorem getDetail_suggestion_of_pair (x y : DetailValue) :
    getDetail (some [( "error", x), ( "suggestion", y)]) "suggestion" = some y := by
  simp [getDetail, lookupKey]

theorem getDetail_suggestion_of_fallback (x y : DetailValue) :
    getDetail (some [( "return_code", x), ( "stdout", y)]) "suggestion" = none := by
  simp [getDetail, lookupKey]

theorem getDetail_return_code_of_fallback (x y : DetailValue) :
    getDetail (some [( "return_code", x), ( "stdout", y)]) "return_code" = some x := by
  simp [getDetail, lookupKey]

theorem is_critical_eq_false_iff (t : TestResult) :
    is_critical t = false ↔ (t.status = TestStatus.FAILED → tolerated t = true) := by
  unfold is_critical
  by_cases hs : t.status = TestStatus.FAILED
  · simp [hs]
  · simp [hs]

/-- The aggregation law over an arbitrary test list. -/
theorem overall_status_of_passed_iff (ts : List TestResult) :
    overall_status_of ts = TestStatus.PASSED ↔
      ∀ t ∈ ts, t.status = TestStatus.FAILED → tolerated t = true := by
  have hiff : (critical_failures ts).isEmpty = true ↔
      ∀ t ∈ ts, t.status = TestStatus.FAILED → tolerated t = true := by
    rw [List.isEmpty_iff]
    unfold critical_failures
    rw [List.filter_eq_nil_iff]
    constructor
    · intro h t ht
      have h2 := h t ht
      rw [Bool.not_eq_true] at h2
      exact (is_critical_eq_false_iff t).mp h2
    · intro h t ht
      rw [Bool.not_eq_true]
      exact (is_critical_eq_false_iff t).mpr (h t ht)
  unfold overall_status_of
  by_cases h : (critical_failures ts).isEmpty = true
  · rw [if_pos h]
    exact iff_of_true rfl (hiff.mp h)
  · rw [if_neg h]
    exact iff_of_false (fun hq => TestStatus.noConfusion hq) (fun hr => h (hiff.mpr hr))

/-! ### Lemmas about the classification ladder -/

theorem classify_flake_failure_sig1 (rc : Int) (out msg : List Char)
    (h : containsSub mkFlakeMissingSig msg = true) :
    classify_flake_failure rc out msg =
      TestResult.mk ( "flake_check".toList) TestStatus.FAILED
        ( "mkFlake function not found (local path issue)".toList)
        (some [( "error", DetailValue.str msg),
               ( "suggestion", DetailValue.str mkFlakeSuggestion)]) := by
  unfold classify_flake_failure
  rw [if_pos h]

theorem classify_flake_failure_sig2 (rc : Int) (out msg : List Char)
    (h1 : containsSub mkFlakeMissingSig msg = false)
    (h2 : containsSub setFunctionSig msg = true) :
    classify_flake_failure rc out msg =
      TestResult.mk ( "flake_check".toList) TestStatus.FAILED
        ( "lib evaluation error (utils/lib issue)".toList)
        (some [( "error", DetailValue.str msg),
               ( "suggestion", DetailValue.str libEvalSuggestion)]) := by
  unfold classify_flake_failure
  rw [if_neg (by simp [h1]), if_pos h2]

theorem classify_flake_failure_sig3 (rc : Int) (out msg : List Char)
    (h1 : containsSub mkFlakeMissingSig msg = false)
    (h2 : containsSub setFunctionSig msg = false)
    (h3 : containsSub circularImportSig msg = true) :
    classify_flake_failure rc out msg =
      TestResult.mk ( "flake_check".toList) TestStatus.FAILED
        ( "Circular import (local path issue)".toList)
        (some [( "error", DetailValue.str msg),
               ( "suggestion", DetailValue.str circularSuggestion)]) := by
  unfold classify_flake_failure
  rw [if_neg (by simp [h1]), if_neg (by simp [h2]), if_pos h3]

theorem classify_flake_failure_other (rc : Int) (out msg : List Char)
    (h1 : containsSub mkFlakeMissingSig msg = false)
    (h2 : containsSub setFunctionSig msg = false)
    (h3 : containsSub circularImportSig msg = false) :
    classify_flake_failure rc out msg =
      TestResult.mk ( "flake_check".toList) TestStatus.FAILED
        ( "nix flake check failed: ".toList ++ msg)
        (some [( "return_code", DetailValue.int rc),
               ( "stdout", DetailValue.str out)]) := by
  unfold classify_flake_failure
  rw [if_neg (by simp [h1]), if_neg (by simp [h2]), if_neg (by simp [h3])]

/-- The URL check's result is named `github_url_check` on every path. -/
theorem check_template_uses_github_url_name (m : Option (List Char)) :
    (check_template_uses_github_url m).name = "github_url_check".toList := by
  cases m with
  | none => rfl
  | some c =>
    simp only [check_template_uses_github_url]
    by_cases h : containsSub EXPECTED_GITHUB_URL c = true
    · rw [if_pos h]
    · rw [if_neg h]

/-! ### Claim theorems -/

/-- C10: for a template directory without a `flake.nix`, the URL check is
`FAILED` with message `flake.nix not found in template` and no details at
all (in particular no `found_urls` list). -/
theorem C10_manifest_missing_url_check :
    check_template_uses_github_url none =
      TestResult.mk ( "github_url_check".toList) TestStatus.FAILED
        ( "flake.nix not found in template".toList) none := rfl

/-- C3: when the manifest exists and contains the canonical reference the
URL check passes; when it exists and lacks it, the check fails and
`details.found_urls` is exactly the regex's capture list in order of
appearance (`find_flake_urls`). -/
theorem C3_github_url_check_law (content : List Char) :
    (containsSub EXPECTED_GITHUB_URL content = true →
      check_template_uses_github_url (some content) =
        TestResult.mk ( "github_url_check".toList) TestStatus.PASSED
          ( "Template uses correct GitHub URL".toList) none) ∧
    (containsSub EXPECTED_GITHUB_URL content = false →
      check_template_uses_github_url (some content) =
        TestResult.mk ( "github_url_check".toList) TestStatus.FAILED
          ( "Template does not use expected GitHub URL: ".toList ++ EXPECTED_GITHUB_URL)
          (some [( "found_urls", DetailValue.strList (find_flake_urls content))])) := by
  constructor
  · intro h
    simp only [check_template_uses_github_url]
    rw [if_pos h]
  · intro h
    simp only [check_template_uses_github_url]
    rw [if_neg (by simp [h])]

/-- C5: on a successful, parsable `flake show`, the outputs check passes iff
the `x86_64-linux` package count is positive, regardless of the other three
counts, and the details record exactly the four counts in both cases. -/
theorem C5_output_count_law (d : FlakeShowData) :
    ((check_template_outputs (ShowResult.parsed d)).status = TestStatus.PASSED ↔
      0 < platformCount d.packages "x86_64-linux") ∧
    (check_template_outputs (ShowResult.parsed d)).details =
      some [( "packages", DetailValue.nat (platformCount d.packages "x86_64-linux")),
            ( "checks", DetailValue.nat (platformCount d.checks "x86_64-linux")),
            ( "devShells", DetailValue.nat (platformCount d.devShells "x86_64-linux")),
            ( "apps", DetailValue.nat (platformCount d.apps "x86_64-linux"))] := by
  by_cases h : platformCount d.packages "x86_64-linux" > 0
  · constructor
    · exact iff_of_true (by simp [check_template_outputs, h]) h
    · simp [check_template_outputs, h]
  · constructor
    · refine iff_of_false ?_ h
      simp [check_template_outputs, h]
    · simp [check_template_outputs, h]

/-- C8: `validate_template` returns a result with `error_message` set iff
the template directory is missing or not a directory, in which case `tests`
is empty; when the directory exists `error_message` is unset no matter how
many tests failed. -/
theorem C8_error_message_law (env : TemplateEnv) (n : List Char) :
    ((validate_template env n).error_message.isSome = true ↔ env.dir_ok = false) ∧
    (env.dir_ok = false → (validate_template env n).tests = []) := by
  cases h : env.dir_ok with
  | false => simp [validate_template, h]
  | true => simp [validate_template, h]

/-- C9: `validate_all_templates` yields the single synthetic `error` entry
(with `error_message` set and no tests) when the root is missing or no
non-hidden subdirectory is found; otherwise its keys are exactly the names
of the non-hidden subdirectories, each mapped to its own
`validate_template` result. -/
theorem C9_batch_enumeration (env : AllEnv) :
    (env.root_exists = false →
      validate_all_templates env =
        [( "error".toList,
           TemplateValidationResult.mk ( "error".toList) TestStatus.FAILED []
             (some ( "Templates directory not found: ".toList ++ env.templates_dir)))]) ∧
    (env.root_exists = true → (env.entries.filter is_template_dir).isEmpty = true →
      validate_all_templates env =
        [( "error".toList,
           TemplateValidationResult.mk ( "error".toList) TestStatus.FAILED []
             (some ( "No template directories found".toList)))]) ∧
    (env.root_exists = true → (env.entries.filter is_template_dir).isEmpty = false →
      validate_all_templates env =
        (env.entries.filter is_template_dir).map
          (fun d => (d.name, validate_template (env.tmpl_env d.name) d.name)) ∧
      (validate_all_templates env).map Prod.fst =
        (env.entries.filter is_template_dir).map DirEntry.name) := by
  refine ⟨?_, ?_, ?_⟩
  · intro h
    simp [validate_all_templates, h]
  · intro h1 h2
    simp [validate_all_templates, h1, h2]
  · intro h1 h2
    have hm : validate_all_templates env =
        (env.entries.filter is_template_dir).map
          (fun d => (d.name, validate_template (env.tmpl_env d.name) d.name)) := by
      simp [validate_all_templates, h1, h2]
    refine ⟨hm, ?_⟩
    rw [hm, List.map_map]
    rfl

/-- C2: for an existing template directory, the overall status is `PASSED`
iff every `FAILED` result in `tests` carries a tolerated-substitution
suggestion (`SKIPPED` results never enter the critical-failure count). -/
theorem C2_aggregation_law (env : TemplateEnv) (n : List Char)
    (h : env.dir_ok = true) :
    (validate_template env n).overall_status = TestStatus.PASSED ↔
      ∀ t ∈ (validate_template env n).tests,
        t.status = TestStatus.FAILED → tolerated t = true := by
  unfold validate_template
  rw [h, if_pos rfl]
  exact overall_status_of_passed_iff (validate_template_tests env)

/-- Witness for C2 at Scenario B: every check passes, so the aggregation
law yields an overall `PASSED`. -/
theorem C2_aggregation_law_witness :
    (validate_template envB ( "basic".toList)).overall_status = TestStatus.PASSED :=
  (C2_aggregation_law envB ( "basic".toList) rfl).mpr (by decide)

/-- C4: when sandbox creation reports success the rewritten manifest has no
occurrence of the canonical reference, at least one `path:` marker, and a
second application of the replacement leaves it unchanged. -/
theorem C4_rewrite_complete_idempotent (project_root content : List Char)
    (h : create_temp_template project_root (some content) = (true, none)) :
    containsSub EXPECTED_GITHUB_URL
        (replace_github_with_local_path project_root content) = false ∧
    containsSub ( "path:".toList)
        (replace_github_with_local_path project_root content) = true ∧
    replace_github_with_local_path project_root
        (replace_github_with_local_path project_root content) =
      replace_github_with_local_path project_root content := by
  simp only [create_temp_template] at h
  split at h
  case isTrue hcond =>
    rw [Bool.and_eq_true, Bool.not_eq_true'] at hcond
    refine ⟨hcond.2, hcond.1, ?_⟩
    show pyReplace (replace_github_with_local_path project_root content)
        EXPECTED_GITHUB_URL ( "path:".toList ++ project_root) =
      replace_github_with_local_path project_root content
    exact pyReplace_id_of_not_contains _ _ _ hcond.2
  case isFalse hcond => simp at h

/-- Witness for C4 at the concrete manifest `contentB` and root `rootA`. -/
theorem C4_rewrite_witness :
    containsSub EXPECTED_GITHUB_URL
        (replace_github_with_local_path rootA contentB) = false ∧
    containsSub ( "path:".toList)
        (replace_github_with_local_path rootA contentB) = true ∧
    replace_github_with_local_path rootA
        (replace_github_with_local_path rootA contentB) =
      replace_github_with_local_path rootA contentB :=
  C4_rewrite_complete_idempotent rootA contentB (by decide)

/-- C7: for an existing directory whose sandbox creation fails, the tests
are exactly the URL check followed by one `FAILED` `temp_template_creation`
record, and no `flake_check` or `outputs_check` result exists (not even a
`SKIPPED` one). -/
theorem C7_creation_failure (env : TemplateEnv) (n : List Char)
    (h1 : env.dir_ok = true)
    (h2 : (create_temp_template env.project_root env.manifest).1 = false) :
    (validate_template env n).tests =
      [check_template_uses_github_url env.manifest,
       TestResult.mk ( "temp_template_creation".toList) TestStatus.FAILED
         ((create_temp_template env.project_root env.manifest).2.getD []) none] ∧
    (check_template_uses_github_url env.manifest).name = "github_url_check".toList ∧
    ∀ t ∈ (validate_template env n).tests,
      ¬t.name = "flake_check".toList ∧ ¬t.name = "outputs_check".toList := by
  have htests : (validate_template env n).tests =
      [check_template_uses_github_url env.manifest,
       TestResult.mk ( "temp_template_creation".toList) TestStatus.FAILED
         ((create_temp_template env.project_root env.manifest).2.getD []) none] := by
    unfold validate_template
    rw [h1, if_pos rfl]
    show validate_template_tests env = _
    unfold validate_template_tests
    rcases hc : create_temp_template env.project_root env.manifest with ⟨a, msg⟩
    rw [hc] at h2
    simp only at h2
    subst h2
    rfl
  refine ⟨htests, check_template_uses_github_url_name env.manifest, ?_⟩
  intro t ht
  rw [htests] at ht
  simp only [List.mem_cons, List.mem_singleton, List.not_mem_nil, or_false] at ht
  cases ht with
  | inl he =>
    subst he
    rw [check_template_uses_github_url_name env.manifest]
    exact ⟨by decide, by decide⟩
  | inr he =>
    subst he
    exact ⟨(by decide : ¬(( "temp_template_creation".toList : List Char) =
              "flake_check".toList)),
           (by decide : ¬(( "temp_template_creation".toList : List Char) =
              "outputs_check".toList))⟩

/-- Witness for C7 at a template directory that exists but lacks a
`flake.nix`, so sandbox creation fails. -/
theorem C7_creation_failure_witness :
    (validate_template envNoManifest ( "nomanifest".toList)).tests =
      [check_template_uses_github_url envNoManifest.manifest,
       TestResult.mk ( "temp_template_creation".toList) TestStatus.FAILED
         ((create_temp_template envNoManifest.project_root
            envNoManifest.manifest).2.getD []) none] :=
  (C7_creation_failure envNoManifest ( "nomanifest".toList) rfl (by decide)).1

/-- C6: classification of a non-zero structural-check exit is deterministic:
stderr containing a known signature yields `FAILED` carrying the matching
suggestion (signatures tried in source order), and stderr matching none of
them yields `FAILED` with the return code recorded and no suggestion. -/
theorem C6_classification (returncode : Int) (stdout stderr : List Char)
    (hrc : returncode ≠ 0) :
    (containsSub mkFlakeMissingSig stderr = true →
      (run_flake_check returncode stdout stderr).status = TestStatus.FAILED ∧
      getDetail (run_flake_check returncode stdout stderr).details "suggestion" =
        some (DetailValue.str mkFlakeSuggestion)) ∧
    (containsSub mkFlakeMissingSig stderr = false →
      containsSub setFunctionSig stderr = true →
      (run_flake_check returncode stdout stderr).status = TestStatus.FAILED ∧
      getDetail (run_flake_check returncode stdout stderr).details "suggestion" =
        some (DetailValue.str libEvalSuggestion)) ∧
    (containsSub mkFlakeMissingSig stderr = false →
      containsSub setFunctionSig stderr = false →
      containsSub circularImportSig stderr = true →
      (run_flake_check returncode stdout stderr).status = TestStatus.FAILED ∧
      getDetail (run_flake_check returncode stdout stderr).details "suggestion" =
        some (DetailValue.str circularSuggestion)) ∧
    (containsSub mkFlakeMissingSig stderr = false →
      containsSub setFunctionSig stderr = false →
      containsSub circularImportSig stderr = false →
      (run_flake_check returncode stdout stderr).status = TestStatus.FAILED ∧
      getDetail (run_flake_check returncode stdout stderr).details "suggestion" = none ∧
      getDetail (run_flake_check returncode stdout stderr).details "return_code" =
        some (DetailValue.int returncode)) := by
  have hrun : run_flake_check returncode stdout stderr =
      classify_flake_failure returncode stdout
        (if stderr.isEmpty then ( "Unknown error".toList) else pyStrip stderr) := by
    unfold run_flake_check
    rw [if_pos hrc]
  refine ⟨?_, ?_, ?_, ?_⟩
  · intro h1
    have hnn : stderr.isEmpty = false := by
      cases stderr with
      | nil => rw [show containsSub mkFlakeMissingSig ([] : List Char) = false
          from by decide] at h1; cases h1
      | cons a l => rfl
    have hmsg : (if stderr.isEmpty then ( "Unknown error".toList)
        else pyStrip stderr) = pyStrip stderr := by rw [hnn]; rfl
    rw [hrun, hmsg, classify_flake_failure_sig1 returncode stdout (pyStrip stderr)
      (containsSub_pyStrip_of _ _ (by decide) (by decide) (by decide) h1)]
    exact ⟨rfl, getDetail_suggestion_of_pair _ _⟩
  · intro h1 h2
    have hnn : stderr.isEmpty = false := by
      cases stderr with
      | nil => rw [show containsSub setFunctionSig ([] : List Char) = false
          from by decide] at h2; cases h2
      | cons a l => rfl
    have hmsg : (if stderr.isEmpty then ( "Unknown error".toList)
        else pyStrip stderr) = pyStrip stderr := by rw [hnn]; rfl
    rw [hrun, hmsg, classify_flake_failure_sig2 returncode stdout (pyStrip stderr)
      (not_containsSub_pyStrip _ _ h1)
      (containsSub_pyStrip_of _ _ (by decide) (by decide) (by decide) h2)]
    exact ⟨rfl, getDetail_suggestion_of_pair _ _⟩
  · intro h1 h2 h3
    have hnn : stderr.isEmpty = false := by
      cases stderr with
      | nil => rw [show containsSub circularImportSig ([] : List Char) = false
          from by decide] at h3; cases h3
      | cons a l => rfl
    have hmsg : (if stderr.isEmpty then ( "Unknown error".toList)
        else pyStrip stderr) = pyStrip stderr := by rw [hnn]; rfl
    rw [hrun, hmsg, classify_flake_failure_sig3 returncode stdout (pyStrip stderr)
      (not_containsSub_pyStrip _ _ h1) (not_containsSub_pyStrip _ _ h2)
      (containsSub_pyStrip_of _ _ (by decide) (by decide) (by decide) h3)]
    exact ⟨rfl, getDetail_suggestion_of_pair _ _⟩
  · intro h1 h2 h3
    cases stderr with
    | nil =>
      have hmsg : (if ([] : List Char).isEmpty then ( "Unknown error".toList)
          else pyStrip []) = "Unknown error".toList := rfl
      rw [hrun, hmsg, classify_flake_failure_other returncode stdout
        ( "Unknown error".toList) (by decide) (by decide) (by decide)]
      exact ⟨rfl, getDetail_suggestion_of_fallback _ _,
        getDetail_return_code_of_fallback _ _⟩
    | cons a l =>
      have hmsg : (if (a :: l).isEmpty then ( "Unknown error".toList)
          else pyStrip (a :: l)) = pyStrip (a :: l) := rfl
      rw [hrun, hmsg, classify_flake_failure_other returncode stdout
        (pyStrip (a :: l)) (not_containsSub_pyStrip _ _ h1)
        (not_containsSub_pyStrip _ _ h2) (not_containsSub_pyStrip _ _ h3)]
      exact ⟨rfl, getDetail_suggestion_of_fallback _ _,
        getDetail_return_code_of_fallback _ _⟩

/-- Witness for C6: exit code 1 with stderr equal to the `mkFlake missing`
signature classifies to `FAILED` with the matching suggestion. -/
theorem C6_classification_witness :
    (run_flake_check 1 [] mkFlakeMissingSig).status = TestStatus.FAILED ∧
    getDetail (run_flake_check 1 [] mkFlakeMissingSig).details "suggestion" =
      some (DetailValue.str mkFlakeSuggestion) :=
  (C6_classification 1 [] mkFlakeMissingSig (by decide)).1 (by decide)

/-- C1, evaluated at Scenario C: the manifest carries the canonical
reference, the sandbox builds, and `nix flake check` exits 1 with stderr
`attribute 'mkFlake' missing`. The classified `flake_check` result carries
the expected suggestion, yet the output-enumeration check is recorded as
`SKIPPED`, not run: the gate looks for the substring `local path issue`
inside `details.suggestion`, and no suggestion the classifier produces
contains that substring (they all say `local path replacement`). The
overall status is even `PASSED` because the only failure is tolerated,
where the spec's Scenario C expects the output check to run, fail on zero
packages, and force overall `FAILED`. -/
theorem C1_outputs_check_skipped_on_mkFlake_missing :
    (validate_template envC ( "basic".toList)).tests =
      [TestResult.mk ( "github_url_check".toList) TestStatus.PASSED
         ( "Template uses correct GitHub URL".toList) none,
       TestResult.mk ( "temp_template_creation".toList) TestStatus.PASSED
         ( "Temporary template created with local path".toList) none,
       TestResult.mk ( "flake_check".toList) TestStatus.FAILED
         ( "mkFlake function not found (local path issue)".toList)
         (some [( "error", DetailValue.str mkFlakeMissingSig),
                ( "suggestion", DetailValue.str mkFlakeSuggestion)]),
       TestResult.mk ( "outputs_check".toList) TestStatus.SKIPPED
         ( "Skipped due to flake check failures".toList) none] ∧
    tolerated (run_flake_check 1 [] mkFlakeMissingSig) = true ∧
    (validate_template envC ( "basic".toList)).overall_status = TestStatus.PASSED := by
  decide

end FlakeFHS
